import Mathlib

/-
  Verification of the Install Protocol core of a generalized state-channel
  runtime (the `install` protocol execution flow and its channel-transition
  algebra `computeInstallStateChannelTransition`).

  The data model and the protocol engine are embedded shallowly: addresses,
  token addresses and hashes are natural numbers, balance maps are
  association lists with JavaScript object-literal overwrite semantics, and
  each protocol role is a function from the pre-protocol channel, the
  incoming protocol message and a host oracle (the answers to the yielded
  opcode requests) to the emitted request trace and the run outcome.
-/

namespace Indra

/-- An asset identifier as it appears in a proposal.  Modelled from the spec:
`getAddressFromAssetId` from the utils package is not under src/; the spec
says token addresses are derived by normalizing deposit asset IDs, so an
asset id carries both its raw form and the token address it normalizes to. -/
structure AssetId where
  raw : Nat
  addr : Nat
deriving DecidableEq, Repr

/-- Modelled from the spec: normalization of an asset id to a token address. -/
def getAddressFromAssetId (a : AssetId) : Nat := a.addr

/-- A public identifier together with the signer address it resolves to.
Modelled from the spec: `getSignerAddressFromPublicIdentifier` from the utils
package is not under src/; the spec says app-party signer addresses are
resolved from their identifiers. -/
structure Identifier where
  id : Nat
  signer : Nat
deriving DecidableEq, Repr

/-- Modelled from the spec: resolution of a public identifier to its signer
address. -/
def getSignerAddressFromPublicIdentifier (i : Identifier) : Nat := i.signer

/-- The fields of an app-instance proposal used by the install protocol. -/
structure AppInstance where
  identityHash : Nat
  initiatorIdentifier : Identifier
  responderIdentifier : Identifier
  initiatorDeposit : Nat
  responderDeposit : Nat
  initiatorDepositAssetId : AssetId
  responderDepositAssetId : AssetId
deriving DecidableEq, Repr

/-- Inner level of a token-indexed coin transfer map: address to amount. -/
abbrev CoinTransferMap := List (Nat × Nat)

/-- Two-level mapping, token address to (address to amount). -/
abbrev TokenIndexedCoinTransferMap := List (Nat × CoinTransferMap)

/-- Assignment of a key in a JavaScript object: if the key is present its
value is replaced in place, otherwise the pair is appended. -/
def objSet {β : Type} (m : List (Nat × β)) (k : Nat) (v : β) : List (Nat × β) :=
  match m with
  | [] => [(k, v)]
  | (k', v') :: rest =>
    if k' = k then (k, v) :: rest else (k', v') :: objSet rest k v

/-- The free-balance app: its token-indexed balances and its version number. -/
structure FreeBalanceApp where
  balances : TokenIndexedCoinTransferMap
  versionNumber : Nat
deriving DecidableEq, Repr

/-- The pre- or post-protocol state channel (the fields the install protocol
touches). -/
structure StateChannel where
  multisigOwners : Nat × Nat
  freeBalance : FreeBalanceApp
  appInstances : List (Nat × AppInstance)
  proposedAppInstances : List (Nat × AppInstance)
deriving DecidableEq, Repr

/-- Balance of an address in one token's transfer map (0 when absent). -/
def getAddrBal (inner : CoinTransferMap) (a : Nat) : Nat :=
  match inner with
  | [] => 0
  | (a', v) :: rest => if a' = a then v else getAddrBal rest a

/-- Balance of an address under a token in a token-indexed map (0 when the
token or the address is absent). -/
def getBal (fb : TokenIndexedCoinTransferMap) (t a : Nat) : Nat :=
  match fb with
  | [] => 0
  | (t', inner) :: rest => if t' = t then getAddrBal inner a else getBal rest t a

/-- Replace the balance of an address in one token's transfer map. -/
def setAddrBal (inner : CoinTransferMap) (a v : Nat) : CoinTransferMap :=
  match inner with
  | [] => [(a, v)]
  | (a', v') :: rest =>
    if a' = a then (a, v) :: rest else (a', v') :: setAddrBal rest a v

/-- Replace the balance of an address under a token in a token-indexed map. -/
def setBal (fb : TokenIndexedCoinTransferMap) (t a v : Nat) : TokenIndexedCoinTransferMap :=
  match fb with
  | [] => [(t, [(a, v)])]
  | (t', inner) :: rest =>
    if t' = t then (t, setAddrBal inner a v) :: rest else (t', inner) :: setBal rest t a v

/-- Subtract every entry of a decrement map from the free-balance map. -/
def applyDecrement (fb : TokenIndexedCoinTransferMap) (dec : TokenIndexedCoinTransferMap) :
    TokenIndexedCoinTransferMap :=
  dec.foldl
    (fun acc entry =>
      entry.2.foldl (fun acc' e => setBal acc' entry.1 e.1 (getBal acc' entry.1 e.1 - e.2)) acc)
    fb

/-- Check that the free balance covers every entry of a decrement map. -/
def sufficientForDecrement (fb : TokenIndexedCoinTransferMap)
    (dec : TokenIndexedCoinTransferMap) : Bool :=
  dec.all (fun entry => entry.2.all (fun e => e.2 ≤ getBal fb entry.1 e.1))

/-- The errors an install run can abort with. -/
inductive ProtocolError where
  | noStateChannel : ProtocolError
  | insufficientFunds (party : Identifier) (asset : Nat) (held needed : Nat) : ProtocolError
  | insufficientFundsInChannel (asset : Nat) (owner : Nat) (held needed : Nat) : ProtocolError
  | hostRejected (reason : String) : ProtocolError
  | invalidCounterpartySignature : ProtocolError
  | appNotProposed : ProtocolError
  | appInstanceNotFound : ProtocolError
deriving DecidableEq, Repr

/-- Look up an app instance by identity hash in an identity-indexed list. -/
def lookupApp (l : List (Nat × AppInstance)) (h : Nat) : Option AppInstance :=
  match l with
  | [] => none
  | (h', app) :: rest => if h' = h then some app else lookupApp rest h

/-- Remove an app instance by identity hash from an identity-indexed list. -/
def removeApp (l : List (Nat × AppInstance)) (h : Nat) : List (Nat × AppInstance) :=
  match l with
  | [] => []
  | (h', app) :: rest => if h' = h then rest else (h', app) :: removeApp rest h

/-- Find the first decrement entry the free balance does not cover. -/
def firstShortfall (fb : TokenIndexedCoinTransferMap) (dec : TokenIndexedCoinTransferMap) :
    Option (Nat × Nat × Nat × Nat) :=
  match dec with
  | [] => none
  | (t, inner) :: rest =>
    match inner.find? (fun e => getBal fb t e.1 < e.2) with
    | some e => some (t, e.1, getBal fb t e.1, e.2)
    | none => firstShortfall fb rest

/-- Modelled from the spec: `StateChannel.installApp` lives in the models
package, not under src/.  Per the spec it verifies the proposal is among the
proposed app instances (else AppNotProposed), verifies free-balance
sufficiency per asset per owner (else InsufficientFunds), and produces a new
channel with the proposal moved from `proposedAppInstances` to
`appInstances` and the free balance reduced by the decrement with its
version number incremented by one. -/
def StateChannel.installApp (c : StateChannel) (proposal : AppInstance)
    (dec : TokenIndexedCoinTransferMap) : Except ProtocolError StateChannel :=
  if (lookupApp c.proposedAppInstances proposal.identityHash).isSome then
    match firstShortfall c.freeBalance.balances dec with
    | some s => .error (.insufficientFundsInChannel s.1 s.2.1 s.2.2.1 s.2.2.2)
    | none =>
      .ok { c with
        proposedAppInstances := removeApp c.proposedAppInstances proposal.identityHash,
        appInstances := (proposal.identityHash, proposal) :: c.appInstances,
        freeBalance :=
          { balances := applyDecrement c.freeBalance.balances dec,
            versionNumber := c.freeBalance.versionNumber + 1 } }
  else .error .appNotProposed

/-- The token-indexed balance decrement built by
`computeInstallStateChannelTransition` (source lines 348-379): the branch is
chosen by comparing the normalized token addresses; in the different-asset
branch each app-order signer is debited its nominal deposit under its own
token, and in the same-asset branch a single object keyed by the token lists
both channel owners, assigned by the tie-break on whether the app initiator
aligns with owner 0.  Object literals are built with JavaScript overwrite
semantics via `objSet`. -/
def installDecrement (stateChannel : StateChannel) (proposal : AppInstance) :
    TokenIndexedCoinTransferMap :=
  let appInitiatorToken := getAddressFromAssetId proposal.initiatorDepositAssetId
  let appResponderToken := getAddressFromAssetId proposal.responderDepositAssetId
  let appInitiatorFb := getSignerAddressFromPublicIdentifier proposal.initiatorIdentifier
  let appResponderFb := getSignerAddressFromPublicIdentifier proposal.responderIdentifier
  let sameChannelAndAppOrdering := appInitiatorFb = stateChannel.multisigOwners.1
  if appInitiatorToken ≠ appResponderToken then
    objSet (objSet [] appInitiatorToken (objSet [] appInitiatorFb proposal.initiatorDeposit))
      appResponderToken (objSet [] appResponderFb proposal.responderDeposit)
  else
    objSet []
      appResponderToken
      (objSet
        (objSet [] stateChannel.multisigOwners.1
          (if sameChannelAndAppOrdering then proposal.initiatorDeposit
           else proposal.responderDeposit))
        stateChannel.multisigOwners.2
        (if sameChannelAndAppOrdering then proposal.responderDeposit
         else proposal.initiatorDeposit))

/-- The channel transition of the install protocol (source lines 342-382):
build the token-indexed balance decrement and install the proposed app. -/
def computeInstallStateChannelTransition (stateChannel : StateChannel)
    (proposal : AppInstance) : Except ProtocolError StateChannel :=
  stateChannel.installApp proposal (installDecrement stateChannel proposal)

/-- An ECDSA recoverable signature, modelled by the address of its producer
and the hash it was produced over. -/
structure Sig where
  signer : Nat
  signedHash : Nat
deriving DecidableEq, Repr

/-- Modelled from the spec: ECDSA public-key recovery.  Recovering a
signature against the hash it was produced over yields its producer;
recovering it against any other hash yields a different address. -/
def recoverSigner (h : Nat) (s : Sig) : Nat :=
  if s.signedHash = h then s.signer else s.signer + 1

/-- Fold a list of naturals into a single hash-like natural. -/
def mixList (l : List Nat) : Nat :=
  l.foldl (fun acc x => acc * 131 + x + 1) 7

/-- Modelled from the spec: `getSetStateCommitment(...).hashToSign()` lives
in the ethereum package, not under src/.  Per the spec it is a deterministic
function of the free-balance app state and version number, so it is modelled
as a plain encoding of those fields. -/
def hashToSign (fb : FreeBalanceApp) : Nat :=
  mixList (fb.versionNumber ::
    fb.balances.flatMap (fun entry => entry.1 :: entry.2.flatMap (fun e => [e.1, e.2])))

/-- The free-balance set-state commitment carried by the persist request,
with its two signatures already aggregated in storage order. -/
structure SetStateCommitment where
  fb : FreeBalanceApp
  sig0 : Sig
  sig1 : Sig
deriving DecidableEq, Repr

/-- The protocol-specific payload of an install protocol message. -/
structure CustomData where
  signature : Sig
deriving DecidableEq, Repr

/-- Install protocol parameters. -/
structure InstallParams where
  proposal : AppInstance
  initiatorIdentifier : Identifier
  responderIdentifier : Identifier
  multisigAddress : Nat
deriving DecidableEq, Repr

/-- Modelled from the spec: the sentinel sequence number from the constants
package. -/
def UNASSIGNED_SEQ_NO : Int := -1

/-- ProtocolMessageData as emitted on the wire. -/
structure Msg where
  processID : Nat
  protocol : String
  params : Option InstallParams
  /- source field name: `to` (a reserved token in Lean) -/
  toId : Identifier
  customData : CustomData
  seq : Int
deriving DecidableEq, Repr

/-- The incoming protocol message available in the context of a run. -/
structure InMsg where
  params : InstallParams
  processID : Nat
  customData : CustomData
deriving DecidableEq, Repr

/-- Persistence request types. -/
inductive PersistAppType where
  | CreateInstance | UpdateInstance | RemoveInstance | Reject
deriving DecidableEq, Repr

/-- The role a run validates under. -/
inductive ProtocolRole where
  | initiator | responder
deriving DecidableEq, Repr

/-- The observable requests an install run emits toward the host, plus the
signature-aggregation call on the free-balance commitment. -/
inductive Event where
  | opValidate (role : ProtocolRole) (params : InstallParams) : Event
  | opSign (hash : Nat) : Event
  | ioSendAndWait (msg : Msg) : Event
  | ioSend (msg : Msg) : Event
  | addSigs (hash : Nat) (sig0 sig1 : Sig) : Event
  | persistApp (typ : PersistAppType) (channel : StateChannel) (app : AppInstance)
      (commitment : SetStateCommitment) : Event
deriving DecidableEq, Repr

/-- Modelled from the spec: `assertSufficientFundsWithinFreeBalance` from
the utils module is not under src/.  Per the spec it verifies the depositing
channel owner has at least the deposit of the asset in free balance, failing
with InsufficientFunds carrying the party, asset, held and needed amounts. -/
def assertSufficientFundsWithinFreeBalance (c : StateChannel) (party : Identifier)
    (asset : Nat) (amount : Nat) : Except ProtocolError Unit :=
  let held := getBal c.freeBalance.balances asset (getSignerAddressFromPublicIdentifier party)
  if held < amount then .error (.insufficientFunds party asset held amount) else .ok ()

/-- The host oracle answering the initiator run's requests. -/
structure InitiatorHost where
  validateResult : Option String
  sign : Nat → Sig
  reply : Msg

/-- The host oracle answering the responder run's requests. -/
structure ResponderHost where
  validateResult : Option String
  sign : Nat → Sig

/-- The protocol name tag on wire messages. -/
def installProtocolName : String := "install"

/-- Sequence 0 of INSTALL_PROTOCOL (source lines 71-198): the initiator
checks funds, computes the speculative transition, requests validation,
signs the free-balance update hash, sends it and waits for the responder's
signature, verifies it, aggregates the signatures in canonical owner order
and requests persistence. -/
def initiatorRun (preProtocolStateChannel : Option StateChannel) (message : InMsg)
    (host : InitiatorHost) : List Event × Except ProtocolError Unit :=
  match preProtocolStateChannel with
  | none => ([], .error .noStateChannel)
  | some pre =>
    let params := message.params
    let proposal := params.proposal
    match assertSufficientFundsWithinFreeBalance pre proposal.initiatorIdentifier
        (getAddressFromAssetId proposal.initiatorDepositAssetId) proposal.initiatorDeposit with
    | .error e => ([], .error e)
    | .ok _ =>
    match assertSufficientFundsWithinFreeBalance pre proposal.responderIdentifier
        (getAddressFromAssetId proposal.responderDepositAssetId) proposal.responderDeposit with
    | .error e => ([], .error e)
    | .ok _ =>
    match computeInstallStateChannelTransition pre proposal with
    | .error e => ([], .error e)
    | .ok stateChannelAfter =>
    match lookupApp stateChannelAfter.appInstances proposal.identityHash with
    | none => ([], .error .appInstanceNotFound)
    | some newAppInstance =>
      let vEvent := Event.opValidate ProtocolRole.initiator params
      match host.validateResult with
      | some reason => ([vEvent], .error (.hostRejected reason))
      | none =>
        let freeBalanceUpdateDataHash := hashToSign stateChannelAfter.freeBalance
        let mySignatureOnFreeBalanceStateUpdate := host.sign freeBalanceUpdateDataHash
        let sEvent := Event.opSign freeBalanceUpdateDataHash
        let outMsg : Msg :=
          { processID := message.processID
            protocol := installProtocolName
            params := some params
            toId := params.responderIdentifier
            customData := { signature := mySignatureOnFreeBalanceStateUpdate }
            seq := 1 }
        let wEvent := Event.ioSendAndWait outMsg
        let counterpartySignatureOnFreeBalanceStateUpdate := host.reply.customData.signature
        let responderSignerAddress :=
          getSignerAddressFromPublicIdentifier params.responderIdentifier
        if recoverSigner freeBalanceUpdateDataHash counterpartySignatureOnFreeBalanceStateUpdate
            = responderSignerAddress then
          let sig0 :=
            if stateChannelAfter.multisigOwners.1 ≠ responderSignerAddress then
              mySignatureOnFreeBalanceStateUpdate
            else counterpartySignatureOnFreeBalanceStateUpdate
          let sig1 :=
            if stateChannelAfter.multisigOwners.1 ≠ responderSignerAddress then
              counterpartySignatureOnFreeBalanceStateUpdate
            else mySignatureOnFreeBalanceStateUpdate
          let aEvent := Event.addSigs freeBalanceUpdateDataHash sig0 sig1
          let pEvent := Event.persistApp PersistAppType.CreateInstance stateChannelAfter
            newAppInstance
            { fb := stateChannelAfter.freeBalance, sig0 := sig0, sig1 := sig1 }
          ([vEvent, sEvent, wEvent, aEvent, pEvent], .ok ())
        else
          ([vEvent, sEvent, wEvent], .error .invalidCounterpartySignature)

/-- Sequence 1 of INSTALL_PROTOCOL (source lines 209-332): the responder
checks funds, computes the speculative transition, requests validation,
verifies the initiator's signature on the free-balance update hash, signs
it, aggregates the signatures in canonical owner order, requests
persistence and then sends its signature back. -/
def responderRun (preProtocolStateChannel : Option StateChannel) (message : InMsg)
    (host : ResponderHost) : List Event × Except ProtocolError Unit :=
  let counterpartySignatureOnFreeBalanceStateUpdate := message.customData.signature
  match preProtocolStateChannel with
  | none => ([], .error .noStateChannel)
  | some pre =>
    let params := message.params
    let proposal := params.proposal
    match assertSufficientFundsWithinFreeBalance pre proposal.initiatorIdentifier
        (getAddressFromAssetId proposal.initiatorDepositAssetId) proposal.initiatorDeposit with
    | .error e => ([], .error e)
    | .ok _ =>
    match assertSufficientFundsWithinFreeBalance pre proposal.responderIdentifier
        (getAddressFromAssetId proposal.responderDepositAssetId) proposal.responderDeposit with
    | .error e => ([], .error e)
    | .ok _ =>
    match computeInstallStateChannelTransition pre proposal with
    | .error e => ([], .error e)
    | .ok stateChannelAfter =>
    match lookupApp stateChannelAfter.appInstances proposal.identityHash with
    | none => ([], .error .appInstanceNotFound)
    | some newAppInstance =>
      let vEvent := Event.opValidate ProtocolRole.responder params
      match host.validateResult with
      | some reason => ([vEvent], .error (.hostRejected reason))
      | none =>
        let protocolInitiatorAddr :=
          getSignerAddressFromPublicIdentifier params.initiatorIdentifier
        let freeBalanceUpdateDataHash := hashToSign stateChannelAfter.freeBalance
        if recoverSigner freeBalanceUpdateDataHash counterpartySignatureOnFreeBalanceStateUpdate
            = protocolInitiatorAddr then
          let mySignatureOnFreeBalanceStateUpdate := host.sign freeBalanceUpdateDataHash
          let sEvent := Event.opSign freeBalanceUpdateDataHash
          let sig0 :=
            if stateChannelAfter.multisigOwners.1 ≠ protocolInitiatorAddr then
              mySignatureOnFreeBalanceStateUpdate
            else counterpartySignatureOnFreeBalanceStateUpdate
          let sig1 :=
            if stateChannelAfter.multisigOwners.1 ≠ protocolInitiatorAddr then
              counterpartySignatureOnFreeBalanceStateUpdate
            else mySignatureOnFreeBalanceStateUpdate
          let aEvent := Event.addSigs freeBalanceUpdateDataHash sig0 sig1
          let pEvent := Event.persistApp PersistAppType.CreateInstance stateChannelAfter
            newAppInstance
            { fb := stateChannelAfter.freeBalance, sig0 := sig0, sig1 := sig1 }
          let outMsg : Msg :=
            { processID := message.processID
              protocol := installProtocolName
              params := none
              toId := params.initiatorIdentifier
              customData := { signature := mySignatureOnFreeBalanceStateUpdate }
              seq := UNASSIGNED_SEQ_NO }
          let sendEvent := Event.ioSend outMsg
          ([vEvent, sEvent, aEvent, pEvent, sendEvent], .ok ())
        else
          ([vEvent], .error .invalidCounterpartySignature)

/-- Trace predicate: the event is an OP_VALIDATE request. -/
def isValidate : Event → Bool
  | .opValidate _ _ => true
  | _ => false

/-- Trace predicate: the event is an OP_SIGN request. -/
def isOpSign : Event → Bool
  | .opSign _ => true
  | _ => false

/-- Trace predicate: the event is an IO_SEND_AND_WAIT request. -/
def isSendAndWait : Event → Bool
  | .ioSendAndWait _ => true
  | _ => false

/-- Trace predicate: the event is an IO_SEND request. -/
def isSendEvent : Event → Bool
  | .ioSend _ => true
  | _ => false

/-- Trace predicate: the event is a PERSIST_APP_INSTANCE request. -/
def isPersist : Event → Bool
  | .persistApp _ _ _ _ => true
  | _ => false

/-- Trace predicate: the event is a signature emission, an outbound message
or a persistence request (everything that must wait for validation). -/
def isActionEvent (e : Event) : Bool :=
  isOpSign e || isSendAndWait e || isSendEvent e || isPersist e

/-- The proposal with the app order of its two parties reversed: identifiers,
deposits and deposit asset ids swapped between initiator and responder. -/
def swapProposal (p : AppInstance) : AppInstance :=
  { p with
    initiatorIdentifier := p.responderIdentifier
    responderIdentifier := p.initiatorIdentifier
    initiatorDeposit := p.responderDeposit
    responderDeposit := p.initiatorDeposit
    initiatorDepositAssetId := p.responderDepositAssetId
    responderDepositAssetId := p.initiatorDepositAssetId }

/-- Concrete identifier of party A (signer address 1, channel owner 0). -/
def demoA : Identifier := { id := 10, signer := 1 }

/-- Concrete identifier of party B (signer address 2, channel owner 1). -/
def demoB : Identifier := { id := 20, signer := 2 }

/-- Concrete asset id normalizing to token address 5. -/
def demoEth : AssetId := { raw := 100, addr := 5 }

/-- Concrete same-asset install proposal: A deposits 30, B deposits 40. -/
def demoProposal : AppInstance :=
  { identityHash := 77
    initiatorIdentifier := demoA
    responderIdentifier := demoB
    initiatorDeposit := 30
    responderDeposit := 40
    initiatorDepositAssetId := demoEth
    responderDepositAssetId := demoEth }

/-- Concrete pre-protocol channel holding the demo proposal, with owners
(1, 2) and 100 of token 5 for each owner. -/
def demoChannel : StateChannel :=
  { multisigOwners := (1, 2)
    freeBalance := { balances := [(5, [(1, 100), (2, 100)])], versionNumber := 3 }
    appInstances := []
    proposedAppInstances := [(77, demoProposal)] }

/-- The free balance of the demo channel after installing the demo proposal. -/
def demoPostFb : FreeBalanceApp :=
  { balances := [(5, [(1, 70), (2, 60)])], versionNumber := 4 }

/-- The free-balance update hash both demo parties sign. -/
def demoHash : Nat := hashToSign demoPostFb

/-- Concrete install parameters for the demo run. -/
def demoParams : InstallParams :=
  { proposal := demoProposal
    initiatorIdentifier := demoA
    responderIdentifier := demoB
    multisigAddress := 500 }

/-- The incoming protocol message of the demo run (for the responder it
carries the initiator's signature over the demo hash). -/
def demoMsg : InMsg :=
  { params := demoParams
    processID := 9
    customData := { signature := { signer := 1, signedHash := demoHash } } }

/-- Honest host oracle for the demo initiator: accepts validation, signs
with address 1, and hears back B's signature over the demo hash. -/
def demoHostI : InitiatorHost :=
  { validateResult := none
    sign := fun h => { signer := 1, signedHash := h }
    reply :=
      { processID := 9
        protocol := installProtocolName
        params := none
        toId := demoA
        customData := { signature := { signer := 2, signedHash := demoHash } }
        seq := UNASSIGNED_SEQ_NO } }

/-- Honest host oracle for the demo responder: accepts validation and signs
with address 2. -/
def demoHostR : ResponderHost :=
  { validateResult := none
    sign := fun h => { signer := 2, signedHash := h } }

/-- Host oracle for the demo initiator whose counterparty replies with a
signature over a different hash. -/
def demoHostBad : InitiatorHost :=
  { demoHostI with
    reply :=
      { demoHostI.reply with
        customData := { signature := { signer := 2, signedHash := demoHash + 1 } } } }

/-- The expected post-install demo channel. -/
def demoPost : StateChannel :=
  { multisigOwners := (1, 2)
    freeBalance := demoPostFb
    appInstances := [(77, demoProposal)]
    proposedAppInstances := [] }

/-- The request trace of the demo initiator run. -/
def demoTraceI : List Event := (initiatorRun (some demoChannel) demoMsg demoHostI).1

/-- The request trace of the demo responder run. -/
def demoTraceR : List Event := (responderRun (some demoChannel) demoMsg demoHostR).1

/-- A channel whose initiator-side free balance cannot cover the demo
proposal's initiator deposit. -/
def demoPoorChannel : StateChannel :=
  { multisigOwners := (1, 2)
    freeBalance := { balances := [(5, [(1, 10)])], versionNumber := 3 }
    appInstances := []
    proposedAppInstances := [(77, demoProposal)] }

/-- A raw-distinct asset id normalizing to the same token address 5. -/
def demoEthB : AssetId := { raw := 101, addr := 5 }

/-- The demo proposal with raw-distinct deposit asset ids that normalize to
the same token address. -/
def demoProposalMixed : AppInstance :=
  { demoProposal with responderDepositAssetId := demoEthB }

/-- The reply message the demo responder sends. -/
def demoReply : Msg :=
  { processID := 9
    protocol := installProtocolName
    params := none
    toId := demoA
    customData := { signature := { signer := 2, signedHash := demoHash } }
    seq := UNASSIGNED_SEQ_NO }

theorem getAddrBal_setAddrBal (inner : CoinTransferMap) (a v a' : Nat) :
    getAddrBal (setAddrBal inner a v) a' = if a = a' then v else getAddrBal inner a' := by
  induction inner with
  | nil =>
    simp only [setAddrBal, getAddrBal]
  | cons hd tl ih =>
    obtain ⟨b, w⟩ := hd
    by_cases hba : b = a
    · subst hba
      simp only [setAddrBal, if_pos rfl, getAddrBal]
      by_cases h : b = a' <;> simp [h]
    · simp only [setAddrBal, if_neg hba, getAddrBal]
      by_cases h : b = a'
      · subst h
        have : ¬ a = b := fun hh => hba hh.symm
        simp [this]
      · simp [h, ih]

theorem getBal_setBal (fb : TokenIndexedCoinTransferMap) (t a v t' a' : Nat) :
    getBal (setBal fb t a v) t' a' =
      if t = t' ∧ a = a' then v else getBal fb t' a' := by
  induction fb with
  | nil =>
    simp only [setBal, getBal, getAddrBal]
    by_cases ht : t = t'
    · subst ht
      simp only [if_pos rfl]
      by_cases ha : a = a' <;> simp [ha]
    · simp [ht]
  | cons hd tl ih =>
    obtain ⟨u, inner⟩ := hd
    by_cases hut : u = t
    · subst hut
      simp only [setBal, if_pos rfl, getBal]
      by_cases ht : u = t'
      · subst ht
        simp only [if_pos rfl, getAddrBal_setAddrBal]
        by_cases ha : a = a' <;> simp [ha]
      · have : ¬ t' = u := fun hh => ht hh.symm
        simp [ht, this]
    · simp only [setBal, if_neg hut, getBal]
      by_cases ht : u = t'
      · subst ht
        have : ¬ t = u := fun hh => hut hh.symm
        simp [this]
      · simp [ht, ih]

theorem firstShortfall_none_le (fb dec) (h : firstShortfall fb dec = none) :
    ∀ t inner, (t, inner) ∈ dec → ∀ a d, (a, d) ∈ inner → d ≤ getBal fb t a := by
  induction dec with
  | nil => intro t inner hmem; simp at hmem
  | cons hd tl ih =>
    obtain ⟨t0, inner0⟩ := hd
    intro t inner hmem a d hmem'
    simp only [firstShortfall] at h
    rcases hfind : inner0.find? (fun e => decide (getBal fb t0 e.1 < e.2)) with _ | e
    · rw [hfind] at h
      rcases List.mem_cons.mp hmem with heq | htl
      · rw [Prod.mk.injEq] at heq
        obtain ⟨rfl, rfl⟩ := heq
        have := List.find?_eq_none.mp hfind (a, d) hmem'
        simp at this
        omega
      · exact ih h t inner htl a d hmem'
    · rw [hfind] at h
      simp at h

theorem multisigOwners_installApp (c : StateChannel) (p : AppInstance)
    (dec : TokenIndexedCoinTransferMap) (post : StateChannel)
    (h : c.installApp p dec = .ok post) :
    post.multisigOwners = c.multisigOwners ∧
    post.freeBalance = (⟨applyDecrement c.freeBalance.balances dec,
      c.freeBalance.versionNumber + 1⟩ : FreeBalanceApp) ∧
    post.appInstances = (p.identityHash, p) :: c.appInstances ∧
    (lookupApp c.proposedAppInstances p.identityHash).isSome = true ∧
    firstShortfall c.freeBalance.balances dec = none := by
  unfold StateChannel.installApp at h
  by_cases hprop : (lookupApp c.proposedAppInstances p.identityHash).isSome = true
  · rw [if_pos hprop] at h
    rcases hsf : firstShortfall c.freeBalance.balances dec with _ | s
    · rw [hsf] at h
      injection h with h
      subst h
      exact ⟨rfl, rfl, rfl, hprop, rfl⟩
    · rw [hsf] at h
      exact Except.noConfusion h
  · rw [if_neg hprop] at h
    exact Except.noConfusion h

theorem computeInstall_inv (c : StateChannel) (p : AppInstance) (post : StateChannel)
    (h : computeInstallStateChannelTransition c p = .ok post) :
    post.multisigOwners = c.multisigOwners ∧
    post.freeBalance = (⟨applyDecrement c.freeBalance.balances (installDecrement c p),
      c.freeBalance.versionNumber + 1⟩ : FreeBalanceApp) ∧
    post.appInstances = (p.identityHash, p) :: c.appInstances ∧
    (lookupApp c.proposedAppInstances p.identityHash).isSome = true ∧
    firstShortfall c.freeBalance.balances (installDecrement c p) = none :=
  multisigOwners_installApp c p (installDecrement c p) post h

theorem lookupApp_after_install (c : StateChannel) (p : AppInstance) (post : StateChannel)
    (h : computeInstallStateChannelTransition c p = .ok post) :
    lookupApp post.appInstances p.identityHash = some p := by
  have hinv := computeInstall_inv c p post h
  rw [hinv.2.2.1]
  simp [lookupApp]

theorem installDecrement_same_asset (c : StateChannel) (p : AppInstance)
    (htok : getAddressFromAssetId p.initiatorDepositAssetId
      = getAddressFromAssetId p.responderDepositAssetId)
    (hown : c.multisigOwners.1 ≠ c.multisigOwners.2) :
    installDecrement c p =
      [(getAddressFromAssetId p.responderDepositAssetId,
        [(c.multisigOwners.1,
          if getSignerAddressFromPublicIdentifier p.initiatorIdentifier = c.multisigOwners.1
          then p.initiatorDeposit else p.responderDeposit),
         (c.multisigOwners.2,
          if getSignerAddressFromPublicIdentifier p.initiatorIdentifier = c.multisigOwners.1
          then p.responderDeposit else p.initiatorDeposit)])] := by
  unfold installDecrement
  simp only [htok, ne_eq, not_true_eq_false, if_false, ite_not]
  simp [objSet, hown]

theorem installDecrement_diff_asset (c : StateChannel) (p : AppInstance)
    (htok : getAddressFromAssetId p.initiatorDepositAssetId
      ≠ getAddressFromAssetId p.responderDepositAssetId) :
    installDecrement c p =
      [(getAddressFromAssetId p.initiatorDepositAssetId,
        [(getSignerAddressFromPublicIdentifier p.initiatorIdentifier, p.initiatorDeposit)]),
       (getAddressFromAssetId p.responderDepositAssetId,
        [(getSignerAddressFromPublicIdentifier p.responderIdentifier, p.responderDeposit)])] := by
  unfold installDecrement
  simp [objSet, htok]

theorem installDecrement_swap (c : StateChannel) (p : AppInstance)
    (htok : getAddressFromAssetId p.initiatorDepositAssetId
      = getAddressFromAssetId p.responderDepositAssetId)
    (hown : c.multisigOwners.1 ≠ c.multisigOwners.2)
    (hparties : (getSignerAddressFromPublicIdentifier p.initiatorIdentifier = c.multisigOwners.1 ∧
        getSignerAddressFromPublicIdentifier p.responderIdentifier = c.multisigOwners.2) ∨
      (getSignerAddressFromPublicIdentifier p.initiatorIdentifier = c.multisigOwners.2 ∧
        getSignerAddressFromPublicIdentifier p.responderIdentifier = c.multisigOwners.1)) :
    installDecrement c (swapProposal p) = installDecrement c p := by
  have htok' : getAddressFromAssetId (swapProposal p).initiatorDepositAssetId
      = getAddressFromAssetId (swapProposal p).responderDepositAssetId := by
    simp [swapProposal, htok.symm]
  rw [installDecrement_same_asset c (swapProposal p) htok' hown,
    installDecrement_same_asset c p htok hown]
  rcases hparties with ⟨hi, hr⟩ | ⟨hi, hr⟩
  · have hr' : getSignerAddressFromPublicIdentifier p.responderIdentifier
        ≠ c.multisigOwners.1 := by rw [hr]; exact fun hh => hown hh.symm
    simp [swapProposal, htok, hi, hr']
  · have hi' : getSignerAddressFromPublicIdentifier p.initiatorIdentifier
        ≠ c.multisigOwners.1 := by rw [hi]; exact fun hh => hown hh.symm
    simp [swapProposal, htok, hi', hr]

/-- C1: when both deposit asset ids resolve to the same token address, the
decrement is a single entry keyed by that token whose keys are the two
channel owners, assigned by the tie-break on whether the app initiator's
signer address equals owner 0; consequently reversing the app order of the
same two parties and deposits yields the identical post free balance. -/
theorem same_asset_tiebreak_normalizes (c : StateChannel) (p : AppInstance)
    (htok : getAddressFromAssetId p.initiatorDepositAssetId
      = getAddressFromAssetId p.responderDepositAssetId)
    (hown : c.multisigOwners.1 ≠ c.multisigOwners.2)
    (hparties : (getSignerAddressFromPublicIdentifier p.initiatorIdentifier = c.multisigOwners.1 ∧
        getSignerAddressFromPublicIdentifier p.responderIdentifier = c.multisigOwners.2) ∨
      (getSignerAddressFromPublicIdentifier p.initiatorIdentifier = c.multisigOwners.2 ∧
        getSignerAddressFromPublicIdentifier p.responderIdentifier = c.multisigOwners.1)) :
    installDecrement c p =
      [(getAddressFromAssetId p.responderDepositAssetId,
        [(c.multisigOwners.1,
          if getSignerAddressFromPublicIdentifier p.initiatorIdentifier = c.multisigOwners.1
          then p.initiatorDeposit else p.responderDeposit),
         (c.multisigOwners.2,
          if getSignerAddressFromPublicIdentifier p.initiatorIdentifier = c.multisigOwners.1
          then p.responderDeposit else p.initiatorDeposit)])] ∧
    ∀ post, computeInstallStateChannelTransition c p = .ok post →
      ∃ post', computeInstallStateChannelTransition c (swapProposal p) = .ok post' ∧
        post'.freeBalance = post.freeBalance := by
  refine ⟨installDecrement_same_asset c p htok hown, ?_⟩
  intro post h
  have hinv := computeInstall_inv c p post h
  have hswapdec := installDecrement_swap c p htok hown hparties
  have hok : computeInstallStateChannelTransition c (swapProposal p) =
      .ok { c with
        proposedAppInstances := removeApp c.proposedAppInstances p.identityHash,
        appInstances := (p.identityHash, swapProposal p) :: c.appInstances,
        freeBalance :=
          ⟨applyDecrement c.freeBalance.balances (installDecrement c p),
            c.freeBalance.versionNumber + 1⟩ } := by
    unfold computeInstallStateChannelTransition StateChannel.installApp
    rw [hswapdec]
    have hid : (swapProposal p).identityHash = p.identityHash := rfl
    rw [hid, if_pos hinv.2.2.2.1, hinv.2.2.2.2]
  exact ⟨_, hok, by rw [hinv.2.1]⟩

/-- C9: the same-asset branch is chosen by comparing the normalized token
addresses, not the raw asset id strings: two raw-distinct asset ids that
normalize to the same token address still produce the single-entry
decrement keyed by the channel owners, so neither owner's deduction
overwrites the other. -/
theorem branch_on_normalized_token (c : StateChannel) (p : AppInstance)
    (hraw : p.initiatorDepositAssetId ≠ p.responderDepositAssetId)
    (haddr : getAddressFromAssetId p.initiatorDepositAssetId
      = getAddressFromAssetId p.responderDepositAssetId)
    (hown : c.multisigOwners.1 ≠ c.multisigOwners.2) :
    installDecrement c p =
      [(getAddressFromAssetId p.responderDepositAssetId,
        [(c.multisigOwners.1,
          if getSignerAddressFromPublicIdentifier p.initiatorIdentifier = c.multisigOwners.1
          then p.initiatorDeposit else p.responderDeposit),
         (c.multisigOwners.2,
          if getSignerAddressFromPublicIdentifier p.initiatorIdentifier = c.multisigOwners.1
          then p.responderDeposit else p.initiatorDeposit)])] :=
  installDecrement_same_asset c p haddr hown

/-- C2: the install transition conserves per-asset totals over the two
channel owners: for every asset, the pre-install owner total equals the
post-install owner total plus the deposits allocated to the installed app
in that asset, in both the same-asset and the different-asset branch. -/
theorem install_preserves_asset_totals (c : StateChannel) (p : AppInstance)
    (post : StateChannel)
    (hown : c.multisigOwners.1 ≠ c.multisigOwners.2)
    (hparties : (getSignerAddressFromPublicIdentifier p.initiatorIdentifier = c.multisigOwners.1 ∧
        getSignerAddressFromPublicIdentifier p.responderIdentifier = c.multisigOwners.2) ∨
      (getSignerAddressFromPublicIdentifier p.initiatorIdentifier = c.multisigOwners.2 ∧
        getSignerAddressFromPublicIdentifier p.responderIdentifier = c.multisigOwners.1))
    (h : computeInstallStateChannelTransition c p = .ok post) :
    ∀ t : Nat,
      getBal c.freeBalance.balances t c.multisigOwners.1
        + getBal c.freeBalance.balances t c.multisigOwners.2
      = getBal post.freeBalance.balances t c.multisigOwners.1
        + getBal post.freeBalance.balances t c.multisigOwners.2
        + ((if t = getAddressFromAssetId p.initiatorDepositAssetId
            then p.initiatorDeposit else 0)
          + (if t = getAddressFromAssetId p.responderDepositAssetId
            then p.responderDeposit else 0)) := by
  intro t
  have hinv := computeInstall_inv c p post h
  rw [hinv.2.1]
  have hcov := firstShortfall_none_le _ _ hinv.2.2.2.2
  by_cases htok : getAddressFromAssetId p.initiatorDepositAssetId
      = getAddressFromAssetId p.responderDepositAssetId
  · rw [installDecrement_same_asset c p htok hown] at hcov ⊢
    have hcov' := hcov (getAddressFromAssetId p.responderDepositAssetId)
      [(c.multisigOwners.1,
        if getSignerAddressFromPublicIdentifier p.initiatorIdentifier = c.multisigOwners.1
        then p.initiatorDeposit else p.responderDeposit),
       (c.multisigOwners.2,
        if getSignerAddressFromPublicIdentifier p.initiatorIdentifier = c.multisigOwners.1
        then p.responderDeposit else p.initiatorDeposit)]
      (by simp)
    have hcov1 := hcov' c.multisigOwners.1
      (if getSignerAddressFromPublicIdentifier p.initiatorIdentifier = c.multisigOwners.1
       then p.initiatorDeposit else p.responderDeposit) (by simp)
    have hcov2 := hcov' c.multisigOwners.2
      (if getSignerAddressFromPublicIdentifier p.initiatorIdentifier = c.multisigOwners.1
       then p.responderDeposit else p.initiatorDeposit) (by simp)
    by_cases hco : getSignerAddressFromPublicIdentifier p.initiatorIdentifier
        = c.multisigOwners.1
    · simp only [if_pos hco] at hcov1 hcov2 ⊢
      by_cases ht : t = getAddressFromAssetId p.responderDepositAssetId
      · subst ht
        simp [applyDecrement, getBal_setBal, htok, hown, hown.symm]
        omega
      · have ht' : getAddressFromAssetId p.responderDepositAssetId ≠ t :=
          fun hh => ht hh.symm
        simp [applyDecrement, getBal_setBal, htok, ht, ht']
    · simp only [if_neg hco] at hcov1 hcov2 ⊢
      by_cases ht : t = getAddressFromAssetId p.responderDepositAssetId
      · subst ht
        simp [applyDecrement, getBal_setBal, htok, hown, hown.symm]
        omega
      · have ht' : getAddressFromAssetId p.responderDepositAssetId ≠ t :=
          fun hh => ht hh.symm
        simp [applyDecrement, getBal_setBal, htok, ht, ht']
  · rw [installDecrement_diff_asset c p htok] at hcov ⊢
    have hcov1 := hcov (getAddressFromAssetId p.initiatorDepositAssetId)
      [(getSignerAddressFromPublicIdentifier p.initiatorIdentifier, p.initiatorDeposit)]
      (by simp) (getSignerAddressFromPublicIdentifier p.initiatorIdentifier)
      p.initiatorDeposit (by simp)
    have hcov2 := hcov (getAddressFromAssetId p.responderDepositAssetId)
      [(getSignerAddressFromPublicIdentifier p.responderIdentifier, p.responderDeposit)]
      (by simp) (getSignerAddressFromPublicIdentifier p.responderIdentifier)
      p.responderDeposit (by simp)
    have htok' : getAddressFromAssetId p.responderDepositAssetId
        ≠ getAddressFromAssetId p.initiatorDepositAssetId := fun hh => htok hh.symm
    rcases hparties with ⟨hi, hr⟩ | ⟨hi, hr⟩ <;>
      simp only [hi, hr] at hcov1 hcov2 ⊢ <;>
      by_cases ht1 : t = getAddressFromAssetId p.initiatorDepositAssetId
    · subst ht1
      simp [applyDecrement, getBal_setBal, htok, htok', hown, hown.symm]
      omega
    · by_cases ht2 : t = getAddressFromAssetId p.responderDepositAssetId
      · subst ht2
        simp [applyDecrement, getBal_setBal, htok, htok', hown, hown.symm]
        omega
      · have ht1' : getAddressFromAssetId p.initiatorDepositAssetId ≠ t :=
          fun hh => ht1 hh.symm
        have ht2' : getAddressFromAssetId p.responderDepositAssetId ≠ t :=
          fun hh => ht2 hh.symm
        simp [applyDecrement, getBal_setBal, ht1, ht2, ht1', ht2']
    · subst ht1
      simp [applyDecrement, getBal_setBal, htok, htok', hown, hown.symm]
      omega
    · by_cases ht2 : t = getAddressFromAssetId p.responderDepositAssetId
      · subst ht2
        simp [applyDecrement, getBal_setBal, htok, htok', hown, hown.symm]
        omega
      · have ht1' : getAddressFromAssetId p.initiatorDepositAssetId ≠ t :=
          fun hh => ht1 hh.symm
        have ht2' : getAddressFromAssetId p.responderDepositAssetId ≠ t :=
          fun hh => ht2 hh.symm
        simp [applyDecrement, getBal_setBal, ht1, ht2, ht1', ht2']

theorem initiatorRun_spec (pre : Option StateChannel) (m : InMsg) (host : InitiatorHost) :
    ((initiatorRun pre m host).1 = [] ∧ (initiatorRun pre m host).2 ≠ .ok ()) ∨
    (∃ reason, host.validateResult = some reason ∧
      initiatorRun pre m host =
        ([Event.opValidate ProtocolRole.initiator m.params],
         .error (.hostRejected reason))) ∨
    (∃ c after, pre = some c ∧ host.validateResult = none ∧
      computeInstallStateChannelTransition c m.params.proposal = .ok after ∧
      ((recoverSigner (hashToSign after.freeBalance) host.reply.customData.signature
          = getSignerAddressFromPublicIdentifier m.params.responderIdentifier ∧
        initiatorRun pre m host =
          ([Event.opValidate ProtocolRole.initiator m.params,
            Event.opSign (hashToSign after.freeBalance),
            Event.ioSendAndWait
              ⟨m.processID, installProtocolName, some m.params, m.params.responderIdentifier,
                ⟨host.sign (hashToSign after.freeBalance)⟩, 1⟩,
            Event.addSigs (hashToSign after.freeBalance)
              (if after.multisigOwners.1
                  ≠ getSignerAddressFromPublicIdentifier m.params.responderIdentifier
                then host.sign (hashToSign after.freeBalance)
                else host.reply.customData.signature)
              (if after.multisigOwners.1
                  ≠ getSignerAddressFromPublicIdentifier m.params.responderIdentifier
                then host.reply.customData.signature
                else host.sign (hashToSign after.freeBalance)),
            Event.persistApp PersistAppType.CreateInstance after m.params.proposal
              ⟨after.freeBalance,
               (if after.multisigOwners.1
                   ≠ getSignerAddressFromPublicIdentifier m.params.responderIdentifier
                 then host.sign (hashToSign after.freeBalance)
                 else host.reply.customData.signature),
               (if after.multisigOwners.1
                   ≠ getSignerAddressFromPublicIdentifier m.params.responderIdentifier
                 then host.reply.customData.signature
                 else host.sign (hashToSign after.freeBalance))⟩],
           .ok ())) ∨
       (recoverSigner (hashToSign after.freeBalance) host.reply.customData.signature
          ≠ getSignerAddressFromPublicIdentifier m.params.responderIdentifier ∧
        initiatorRun pre m host =
          ([Event.opValidate ProtocolRole.initiator m.params,
            Event.opSign (hashToSign after.freeBalance),
            Event.ioSendAndWait
              ⟨m.processID, installProtocolName, some m.params, m.params.responderIdentifier,
                ⟨host.sign (hashToSign after.freeBalance)⟩, 1⟩],
           .error .invalidCounterpartySignature)))) := by
  rcases pre with _ | c
  · left
    simp [initiatorRun]
  · rcases h1 : assertSufficientFundsWithinFreeBalance c m.params.proposal.initiatorIdentifier
        (getAddressFromAssetId m.params.proposal.initiatorDepositAssetId)
        m.params.proposal.initiatorDeposit with e1 | u1
    · left
      simp [initiatorRun, h1]
    · rcases h2 : assertSufficientFundsWithinFreeBalance c m.params.proposal.responderIdentifier
          (getAddressFromAssetId m.params.proposal.responderDepositAssetId)
          m.params.proposal.responderDeposit with e2 | u2
      · left
        simp [initiatorRun, h1, h2]
      · rcases h3 : computeInstallStateChannelTransition c m.params.proposal with e3 | after
        · left
          simp [initiatorRun, h1, h2, h3]
        · have h4 := lookupApp_after_install c m.params.proposal after h3
          rcases hv : host.validateResult with _ | reason
          · by_cases hs : recoverSigner (hashToSign after.freeBalance)
                host.reply.customData.signature
                = getSignerAddressFromPublicIdentifier m.params.responderIdentifier
            · right; right
              exact ⟨c, after, rfl, rfl, h3,
                Or.inl ⟨hs, by simp [initiatorRun, h1, h2, h3, h4, hv, hs]⟩⟩
            · right; right
              exact ⟨c, after, rfl, rfl, h3,
                Or.inr ⟨hs, by simp [initiatorRun, h1, h2, h3, h4, hv, hs]⟩⟩
          · right; left
            exact ⟨reason, rfl, by simp [initiatorRun, h1, h2, h3, h4, hv]⟩

theorem responderRun_spec (pre : Option StateChannel) (m : InMsg) (host : ResponderHost) :
    ((responderRun pre m host).1 = [] ∧ (responderRun pre m host).2 ≠ .ok ()) ∨
    (∃ reason, host.validateResult = some reason ∧
      responderRun pre m host =
        ([Event.opValidate ProtocolRole.responder m.params],
         .error (.hostRejected reason))) ∨
    (∃ c after, pre = some c ∧ host.validateResult = none ∧
      computeInstallStateChannelTransition c m.params.proposal = .ok after ∧
      ((recoverSigner (hashToSign after.freeBalance) m.customData.signature
          = getSignerAddressFromPublicIdentifier m.params.initiatorIdentifier ∧
        responderRun pre m host =
          ([Event.opValidate ProtocolRole.responder m.params,
            Event.opSign (hashToSign after.freeBalance),
            Event.addSigs (hashToSign after.freeBalance)
              (if after.multisigOwners.1
                  ≠ getSignerAddressFromPublicIdentifier m.params.initiatorIdentifier
                then host.sign (hashToSign after.freeBalance)
                else m.customData.signature)
              (if after.multisigOwners.1
                  ≠ getSignerAddressFromPublicIdentifier m.params.initiatorIdentifier
                then m.customData.signature
                else host.sign (hashToSign after.freeBalance)),
            Event.persistApp PersistAppType.CreateInstance after m.params.proposal
              ⟨after.freeBalance,
               (if after.multisigOwners.1
                   ≠ getSignerAddressFromPublicIdentifier m.params.initiatorIdentifier
                 then host.sign (hashToSign after.freeBalance)
                 else m.customData.signature),
               (if after.multisigOwners.1
                   ≠ getSignerAddressFromPublicIdentifier m.params.initiatorIdentifier
                 then m.customData.signature
                 else host.sign (hashToSign after.freeBalance))⟩,
            Event.ioSend
              ⟨m.processID, installProtocolName, none, m.params.initiatorIdentifier,
                ⟨host.sign (hashToSign after.freeBalance)⟩, UNASSIGNED_SEQ_NO⟩],
           .ok ())) ∨
       (recoverSigner (hashToSign after.freeBalance) m.customData.signature
          ≠ getSignerAddressFromPublicIdentifier m.params.initiatorIdentifier ∧
        responderRun pre m host =
          ([Event.opValidate ProtocolRole.responder m.params],
           .error .invalidCounterpartySignature)))) := by
  rcases pre with _ | c
  · left
    simp [responderRun]
  · rcases h1 : assertSufficientFundsWithinFreeBalance c m.params.proposal.initiatorIdentifier
        (getAddressFromAssetId m.params.proposal.initiatorDepositAssetId)
        m.params.proposal.initiatorDeposit with e1 | u1
    · left
      simp [responderRun, h1]
    · rcases h2 : assertSufficientFundsWithinFreeBalance c m.params.proposal.responderIdentifier
          (getAddressFromAssetId m.params.proposal.responderDepositAssetId)
          m.params.proposal.responderDeposit with e2 | u2
      · left
        simp [responderRun, h1, h2]
      · rcases h3 : computeInstallStateChannelTransition c m.params.proposal with e3 | after
        · left
          simp [responderRun, h1, h2, h3]
        · have h4 := lookupApp_after_install c m.params.proposal after h3
          rcases hv : host.validateResult with _ | reason
          · by_cases hs : recoverSigner (hashToSign after.freeBalance)
                m.customData.signature
                = getSignerAddressFromPublicIdentifier m.params.initiatorIdentifier
            · right; right
              exact ⟨c, after, rfl, rfl, h3,
                Or.inl ⟨hs, by simp [responderRun, h1, h2, h3, h4, hv, hs]⟩⟩
            · right; right
              exact ⟨c, after, rfl, rfl, h3,
                Or.inr ⟨hs, by simp [responderRun, h1, h2, h3, h4, hv, hs]⟩⟩
          · right; left
            exact ⟨reason, rfl, by simp [responderRun, h1, h2, h3, h4, hv]⟩

/-- C5: in every initiator run, OP_SIGN, IO_SEND_AND_WAIT and
PERSIST_APP_INSTANCE requests are only emitted when OP_VALIDATE has
returned null and only after the OP_VALIDATE request in the trace; a
non-null validation result aborts the run with that reason, with no
signature, no message and no persist request emitted. -/
theorem initiator_validate_precedes_actions (pre : Option StateChannel) (m : InMsg)
    (host : InitiatorHost) (tr : List Event) (res : Except ProtocolError Unit)
    (hrun : initiatorRun pre m host = (tr, res)) :
    (∀ reason, Event.opValidate ProtocolRole.initiator m.params ∈ tr →
      host.validateResult = some reason →
      res = .error (.hostRejected reason) ∧ tr.any isActionEvent = false) ∧
    (tr.any isActionEvent = true → host.validateResult = none) ∧
    (∀ n, (tr.take n).any isActionEvent = true → (tr.take n).any isValidate = true) := by
  rcases initiatorRun_spec pre m host with ⟨ht, _⟩ | ⟨reason, hv, heq⟩ |
    ⟨c, after, hpre, hv, h3, ⟨hs, heq⟩ | ⟨hs, heq⟩⟩
  · rw [hrun] at ht
    simp only at ht
    subst ht
    refine ⟨?_, ?_, ?_⟩
    · intro reason hmem
      simp at hmem
    · intro hany
      simp at hany
    · intro n hany
      simp at hany
  · rw [hrun] at heq
    rw [Prod.mk.injEq] at heq
    obtain ⟨htr, hres⟩ := heq
    subst htr
    subst hres
    refine ⟨?_, ?_, ?_⟩
    · intro reason' _ hv'
      rw [hv] at hv'
      injection hv' with hv'
      subst hv'
      exact ⟨rfl, by simp [isActionEvent, isOpSign, isSendAndWait, isSendEvent, isPersist]⟩
    · intro hany
      simp [isActionEvent, isOpSign, isSendAndWait, isSendEvent, isPersist] at hany
    · intro n hany
      rcases n with _ | n
      · simp at hany
      · simp [isActionEvent, isOpSign, isSendAndWait, isSendEvent, isPersist] at hany
  · rw [hrun] at heq
    rw [Prod.mk.injEq] at heq
    obtain ⟨htr, hres⟩ := heq
    subst htr
    subst hres
    refine ⟨?_, ?_, ?_⟩
    · intro reason' _ hv'
      rw [hv] at hv'
      exact Option.noConfusion hv'
    · intro _
      exact hv
    · intro n hany
      rcases n with _ | n
      · simp at hany
      · simp [List.take_succ_cons, isValidate]
  · rw [hrun] at heq
    rw [Prod.mk.injEq] at heq
    obtain ⟨htr, hres⟩ := heq
    subst htr
    subst hres
    refine ⟨?_, ?_, ?_⟩
    · intro reason' _ hv'
      rw [hv] at hv'
      exact Option.noConfusion hv'
    · intro _
      exact hv
    · intro n hany
      rcases n with _ | n
      · simp at hany
      · simp [List.take_succ_cons, isValidate]

/-- C4: in every responder run, an OP_SIGN request is emitted only when the
initiator's signature on the locally computed free-balance commitment hash
has been verified, and every IO_SEND in the trace is preceded by a
PERSIST_APP_INSTANCE request. -/
theorem responder_verify_before_sign_persist_before_send (pre : Option StateChannel)
    (m : InMsg) (host : ResponderHost) (tr : List Event)
    (res : Except ProtocolError Unit)
    (hrun : responderRun pre m host = (tr, res)) :
    (∀ h, Event.opSign h ∈ tr →
      recoverSigner h m.customData.signature
        = getSignerAddressFromPublicIdentifier m.params.initiatorIdentifier) ∧
    (∀ n, (tr.take n).any isSendEvent = true → (tr.take n).any isPersist = true) := by
  rcases responderRun_spec pre m host with ⟨ht, _⟩ | ⟨reason, hv, heq⟩ |
    ⟨c, after, hpre, hv, h3, ⟨hs, heq⟩ | ⟨hs, heq⟩⟩
  · rw [hrun] at ht
    simp only at ht
    subst ht
    refine ⟨?_, ?_⟩
    · intro h hmem
      simp at hmem
    · intro n hany
      simp at hany
  · rw [hrun] at heq
    rw [Prod.mk.injEq] at heq
    obtain ⟨htr, hres⟩ := heq
    subst htr
    subst hres
    refine ⟨?_, ?_⟩
    · intro h hmem
      simp at hmem
    · intro n hany
      rcases n with _ | n
      · simp at hany
      · simp [isSendEvent] at hany
  · rw [hrun] at heq
    rw [Prod.mk.injEq] at heq
    obtain ⟨htr, hres⟩ := heq
    subst htr
    subst hres
    refine ⟨?_, ?_⟩
    · intro h hmem
      simp at hmem
      obtain ⟨rfl⟩ := hmem
      exact hs
    · intro n hany
      rcases n with _ | _ | _ | _ | _ | n
      · simp at hany
      · simp [List.take_succ_cons, isSendEvent] at hany
      · simp [List.take_succ_cons, isSendEvent] at hany
      · simp [List.take_succ_cons, isSendEvent] at hany
      · simp [List.take_succ_cons, isSendEvent, isPersist]
      · simp [List.take_succ_cons, isSendEvent, isPersist]
  · rw [hrun] at heq
    rw [Prod.mk.injEq] at heq
    obtain ⟨htr, hres⟩ := heq
    subst htr
    subst hres
    refine ⟨?_, ?_⟩
    · intro h hmem
      simp at hmem
    · intro n hany
      rcases n with _ | n
      · simp at hany
      · simp [isSendEvent] at hany

/-- C6: an initiator run that reaches the reply and finds that the recovered
signer of the responder's signature over the locally computed free-balance
commitment hash differs from the signer address derived from the responder
identifier fails with the invalid-counterparty-signature error and emits no
PERSIST_APP_INSTANCE request, so the stored channel state is unchanged. -/
theorem initiator_rejects_bad_countersignature (c : StateChannel) (m : InMsg)
    (host : InitiatorHost) (after : StateChannel)
    (h1 : assertSufficientFundsWithinFreeBalance c m.params.proposal.initiatorIdentifier
      (getAddressFromAssetId m.params.proposal.initiatorDepositAssetId)
      m.params.proposal.initiatorDeposit = .ok ())
    (h2 : assertSufficientFundsWithinFreeBalance c m.params.proposal.responderIdentifier
      (getAddressFromAssetId m.params.proposal.responderDepositAssetId)
      m.params.proposal.responderDeposit = .ok ())
    (h3 : computeInstallStateChannelTransition c m.params.proposal = .ok after)
    (hv : host.validateResult = none)
    (hbad : recoverSigner (hashToSign after.freeBalance) host.reply.customData.signature
      ≠ getSignerAddressFromPublicIdentifier m.params.responderIdentifier) :
    (initiatorRun (some c) m host).2 = .error .invalidCounterpartySignature ∧
    (initiatorRun (some c) m host).1.any isPersist = false := by
  have h4 := lookupApp_after_install c m.params.proposal after h3
  constructor
  · simp [initiatorRun, h1, h2, h3, h4, hv, hbad]
  · simp [initiatorRun, h1, h2, h3, h4, hv, hbad, isPersist]

/-- C7: in both roles the two free-balance sufficiency checks run before the
transition is computed and before any request is emitted: a shortfall on the
initiator's deposit side, or (that side passing) on the responder's side,
aborts the run with an insufficient-funds error carrying the depositing
party, the asset, the held amount and the needed amount, with an empty
request trace. -/
theorem insufficient_funds_aborts_before_signing (c : StateChannel) (m : InMsg)
    (hostI : InitiatorHost) (hostR : ResponderHost) :
    (getBal c.freeBalance.balances
        (getAddressFromAssetId m.params.proposal.initiatorDepositAssetId)
        (getSignerAddressFromPublicIdentifier m.params.proposal.initiatorIdentifier)
        < m.params.proposal.initiatorDeposit →
      initiatorRun (some c) m hostI =
        ([], .error (.insufficientFunds m.params.proposal.initiatorIdentifier
          (getAddressFromAssetId m.params.proposal.initiatorDepositAssetId)
          (getBal c.freeBalance.balances
            (getAddressFromAssetId m.params.proposal.initiatorDepositAssetId)
            (getSignerAddressFromPublicIdentifier m.params.proposal.initiatorIdentifier))
          m.params.proposal.initiatorDeposit)) ∧
      responderRun (some c) m hostR =
        ([], .error (.insufficientFunds m.params.proposal.initiatorIdentifier
          (getAddressFromAssetId m.params.proposal.initiatorDepositAssetId)
          (getBal c.freeBalance.balances
            (getAddressFromAssetId m.params.proposal.initiatorDepositAssetId)
            (getSignerAddressFromPublicIdentifier m.params.proposal.initiatorIdentifier))
          m.params.proposal.initiatorDeposit))) ∧
    (¬ getBal c.freeBalance.balances
        (getAddressFromAssetId m.params.proposal.initiatorDepositAssetId)
        (getSignerAddressFromPublicIdentifier m.params.proposal.initiatorIdentifier)
        < m.params.proposal.initiatorDeposit →
      getBal c.freeBalance.balances
        (getAddressFromAssetId m.params.proposal.responderDepositAssetId)
        (getSignerAddressFromPublicIdentifier m.params.proposal.responderIdentifier)
        < m.params.proposal.responderDeposit →
      initiatorRun (some c) m hostI =
        ([], .error (.insufficientFunds m.params.proposal.responderIdentifier
          (getAddressFromAssetId m.params.proposal.responderDepositAssetId)
          (getBal c.freeBalance.balances
            (getAddressFromAssetId m.params.proposal.responderDepositAssetId)
            (getSignerAddressFromPublicIdentifier m.params.proposal.responderIdentifier))
          m.params.proposal.responderDeposit)) ∧
      responderRun (some c) m hostR =
        ([], .error (.insufficientFunds m.params.proposal.responderIdentifier
          (getAddressFromAssetId m.params.proposal.responderDepositAssetId)
          (getBal c.freeBalance.balances
            (getAddressFromAssetId m.params.proposal.responderDepositAssetId)
            (getSignerAddressFromPublicIdentifier m.params.proposal.responderIdentifier))
          m.params.proposal.responderDeposit))) := by
  constructor
  · intro hlt
    constructor
    · simp [initiatorRun, assertSufficientFundsWithinFreeBalance, hlt]
    · simp [responderRun, assertSufficientFundsWithinFreeBalance, hlt]
  · intro hge hlt
    constructor
    · simp [initiatorRun, assertSufficientFundsWithinFreeBalance, hge, hlt]
    · simp [responderRun, assertSufficientFundsWithinFreeBalance, hge, hlt]

theorem opSign_initiator_hash (pre : StateChannel) (m : InMsg) (host : InitiatorHost)
    (h : Nat) (hmem : Event.opSign h ∈ (initiatorRun (some pre) m host).1) :
    ∃ after, computeInstallStateChannelTransition pre m.params.proposal = .ok after ∧
      h = hashToSign after.freeBalance := by
  rcases initiatorRun_spec (some pre) m host with ⟨ht, _⟩ | ⟨reason, hv, heq⟩ |
    ⟨c, after, hpre, hv, h3, ⟨hs, heq⟩ | ⟨hs, heq⟩⟩
  · rw [ht] at hmem
    simp at hmem
  · rw [heq] at hmem
    simp at hmem
  · injection hpre with hpre
    subst hpre
    rw [heq] at hmem
    simp at hmem
    obtain ⟨rfl⟩ := hmem
    exact ⟨after, h3, rfl⟩
  · injection hpre with hpre
    subst hpre
    rw [heq] at hmem
    simp at hmem
    obtain ⟨rfl⟩ := hmem
    exact ⟨after, h3, rfl⟩

theorem opSign_responder_hash (pre : StateChannel) (m : InMsg) (host : ResponderHost)
    (h : Nat) (hmem : Event.opSign h ∈ (responderRun (some pre) m host).1) :
    ∃ after, computeInstallStateChannelTransition pre m.params.proposal = .ok after ∧
      h = hashToSign after.freeBalance := by
  rcases responderRun_spec (some pre) m host with ⟨ht, _⟩ | ⟨reason, hv, heq⟩ |
    ⟨c, after, hpre, hv, h3, ⟨hs, heq⟩ | ⟨hs, heq⟩⟩
  · rw [ht] at hmem
    simp at hmem
  · rw [heq] at hmem
    simp at hmem
  · injection hpre with hpre
    subst hpre
    rw [heq] at hmem
    simp at hmem
    obtain ⟨rfl⟩ := hmem
    exact ⟨after, h3, rfl⟩
  · injection hpre with hpre
    subst hpre
    rw [heq] at hmem
    simp at hmem

/-- C8: the channel transition is a deterministic pure function, equal
inputs yielding equal outputs, and consequently the free-balance update
hash the initiator signs equals the one the responder signs whenever both
run on equal pre-channels and params. -/
theorem transition_deterministic_hash_agreement (c₁ c₂ : StateChannel)
    (p₁ p₂ : AppInstance) (hc : c₁ = c₂) (hp : p₁ = p₂) :
    computeInstallStateChannelTransition c₁ p₁
      = computeInstallStateChannelTransition c₂ p₂ ∧
    ∀ (pre : StateChannel) (m : InMsg) (hostI : InitiatorHost) (hostR : ResponderHost)
      (h₁ h₂ : Nat),
      Event.opSign h₁ ∈ (initiatorRun (some pre) m hostI).1 →
      Event.opSign h₂ ∈ (responderRun (some pre) m hostR).1 →
      h₁ = h₂ := by
  subst hc
  subst hp
  refine ⟨rfl, ?_⟩
  intro pre m hostI hostR h₁ h₂ hm1 hm2
  obtain ⟨a1, ha1, rfl⟩ := opSign_initiator_hash pre m hostI h₁ hm1
  obtain ⟨a2, ha2, rfl⟩ := opSign_responder_hash pre m hostR h₂ hm2
  rw [ha1] at ha2
  injection ha2 with ha2
  rw [ha2]

/-- C10: the responder's reply carries no params field: every IO_SEND
message in a responder trace consists exactly of the run's processID, the
install protocol tag, no params, the initiator identifier as recipient, the
unassigned sequence number, and a customData holding only the responder's
own signature; and the initiator reads only customData.signature from the
reply, its run being unchanged under any other difference in the reply. -/
theorem responder_reply_minimal (pre : Option StateChannel) (m : InMsg)
    (host : ResponderHost) (tr : List Event) (res : Except ProtocolError Unit)
    (hrun : responderRun pre m host = (tr, res)) :
    (∀ msg, Event.ioSend msg ∈ tr →
      msg.processID = m.processID ∧ msg.protocol = installProtocolName ∧
      msg.params = none ∧ msg.toId = m.params.initiatorIdentifier ∧
      msg.seq = UNASSIGNED_SEQ_NO ∧
      ∃ h, Event.opSign h ∈ tr ∧ msg.customData = ⟨host.sign h⟩) ∧
    (∀ (pre' : Option StateChannel) (m' : InMsg) (host₁ host₂ : InitiatorHost),
      host₁.validateResult = host₂.validateResult →
      host₁.sign = host₂.sign →
      host₁.reply.customData.signature = host₂.reply.customData.signature →
      initiatorRun pre' m' host₁ = initiatorRun pre' m' host₂) := by
  constructor
  · rcases responderRun_spec pre m host with ⟨ht, _⟩ | ⟨reason, hv, heq⟩ |
      ⟨c, after, hpre, hv, h3, ⟨hs, heq⟩ | ⟨hs, heq⟩⟩
    · rw [hrun] at ht
      simp only at ht
      subst ht
      intro msg hmem
      simp at hmem
    · rw [hrun] at heq
      rw [Prod.mk.injEq] at heq
      obtain ⟨htr, _⟩ := heq
      subst htr
      intro msg hmem
      simp at hmem
    · rw [hrun] at heq
      rw [Prod.mk.injEq] at heq
      obtain ⟨htr, _⟩ := heq
      subst htr
      intro msg hmem
      simp at hmem
      subst hmem
      exact ⟨rfl, rfl, rfl, rfl, rfl, hashToSign after.freeBalance, by simp, rfl⟩
    · rw [hrun] at heq
      rw [Prod.mk.injEq] at heq
      obtain ⟨htr, _⟩ := heq
      subst htr
      intro msg hmem
      simp at hmem
  · intro pre' m' host₁ host₂ hval hsign hreply
    rcases pre' with _ | c
    · simp [initiatorRun]
    · rcases h1 : assertSufficientFundsWithinFreeBalance c
          m'.params.proposal.initiatorIdentifier
          (getAddressFromAssetId m'.params.proposal.initiatorDepositAssetId)
          m'.params.proposal.initiatorDeposit with e1 | u1
      · simp [initiatorRun, h1]
      · rcases h2 : assertSufficientFundsWithinFreeBalance c
            m'.params.proposal.responderIdentifier
            (getAddressFromAssetId m'.params.proposal.responderDepositAssetId)
            m'.params.proposal.responderDeposit with e2 | u2
        · simp [initiatorRun, h1, h2]
        · rcases h3 : computeInstallStateChannelTransition c m'.params.proposal
              with e3 | after
          · simp [initiatorRun, h1, h2, h3]
          · have h4 := lookupApp_after_install c m'.params.proposal after h3
            rcases hv : host₁.validateResult with _ | reason
            · have hv2 : host₂.validateResult = none := by rw [← hval, hv]
              simp [initiatorRun, h1, h2, h3, h4, hv, hv2, hsign, hreply]
            · have hv2 : host₂.validateResult = some reason := by rw [← hval, hv]
              simp [initiatorRun, h1, h2, h3, h4, hv, hv2]

/-- C3: in every successful run of either role, the two signatures passed
to addSignatures on the free-balance commitment are in canonical channel
owner order: the first recovers to multisigOwners[0] and the second to
multisigOwners[1], independent of which party initiated the protocol,
provided each party's signer address is one of the two distinct owners and
each host signs for its own party. -/
theorem signatures_in_canonical_owner_order (c : StateChannel) (m : InMsg)
    (hostI : InitiatorHost) (hostR : ResponderHost)
    (hown : c.multisigOwners.1 ≠ c.multisigOwners.2)
    (hio : getSignerAddressFromPublicIdentifier m.params.initiatorIdentifier
        = c.multisigOwners.1 ∨
      getSignerAddressFromPublicIdentifier m.params.initiatorIdentifier
        = c.multisigOwners.2)
    (hro : getSignerAddressFromPublicIdentifier m.params.responderIdentifier
        = c.multisigOwners.1 ∨
      getSignerAddressFromPublicIdentifier m.params.responderIdentifier
        = c.multisigOwners.2)
    (hir : getSignerAddressFromPublicIdentifier m.params.initiatorIdentifier
      ≠ getSignerAddressFromPublicIdentifier m.params.responderIdentifier)
    (honestI : ∀ h, recoverSigner h (hostI.sign h)
      = getSignerAddressFromPublicIdentifier m.params.initiatorIdentifier)
    (honestR : ∀ h, recoverSigner h (hostR.sign h)
      = getSignerAddressFromPublicIdentifier m.params.responderIdentifier) :
    (∀ tr h s0 s1, initiatorRun (some c) m hostI = (tr, .ok ()) →
      Event.addSigs h s0 s1 ∈ tr →
      recoverSigner h s0 = c.multisigOwners.1 ∧
      recoverSigner h s1 = c.multisigOwners.2) ∧
    (∀ tr h s0 s1, responderRun (some c) m hostR = (tr, .ok ()) →
      Event.addSigs h s0 s1 ∈ tr →
      recoverSigner h s0 = c.multisigOwners.1 ∧
      recoverSigner h s1 = c.multisigOwners.2) := by
  constructor
  · intro tr h s0 s1 hrun hmem
    rcases initiatorRun_spec (some c) m hostI with ⟨ht, hne⟩ | ⟨reason, hv, heq⟩ |
      ⟨c', after, hpre, hv, h3, ⟨hs, heq⟩ | ⟨hs, heq⟩⟩
    · rw [hrun] at hne
      simp at hne
    · rw [hrun] at heq
      rw [Prod.mk.injEq] at heq
      exact Except.noConfusion heq.2
    · injection hpre with hpre
      subst hpre
      rw [hrun] at heq
      rw [Prod.mk.injEq] at heq
      obtain ⟨htr, _⟩ := heq
      subst htr
      simp at hmem
      obtain ⟨rfl, rfl, rfl⟩ := hmem
      have hmo : after.multisigOwners = c.multisigOwners := (computeInstall_inv _ _ _ h3).1
      rw [hmo]
      by_cases hb : c.multisigOwners.1
          = getSignerAddressFromPublicIdentifier m.params.responderIdentifier
      · rw [if_pos hb, if_pos hb]
        have hi2 : getSignerAddressFromPublicIdentifier m.params.initiatorIdentifier
            = c.multisigOwners.2 := by
          rcases hio with hi | hi
          · exact absurd (hi.trans hb) hir
          · exact hi
        exact ⟨hs.trans hb.symm, (honestI _).trans hi2⟩
      · rw [if_neg hb, if_neg hb]
        have hr2 : getSignerAddressFromPublicIdentifier m.params.responderIdentifier
            = c.multisigOwners.2 := by
          rcases hro with hr | hr
          · exact absurd hr.symm hb
          · exact hr
        have hi1 : getSignerAddressFromPublicIdentifier m.params.initiatorIdentifier
            = c.multisigOwners.1 := by
          rcases hio with hi | hi
          · exact hi
          · exact absurd (hi.trans hr2.symm) hir
        exact ⟨(honestI _).trans hi1, hs.trans hr2⟩
    · rw [hrun] at heq
      rw [Prod.mk.injEq] at heq
      exact Except.noConfusion heq.2
  · intro tr h s0 s1 hrun hmem
    rcases responderRun_spec (some c) m hostR with ⟨ht, hne⟩ | ⟨reason, hv, heq⟩ |
      ⟨c', after, hpre, hv, h3, ⟨hs, heq⟩ | ⟨hs, heq⟩⟩
    · rw [hrun] at hne
      simp at hne
    · rw [hrun] at heq
      rw [Prod.mk.injEq] at heq
      exact Except.noConfusion heq.2
    · injection hpre with hpre
      subst hpre
      rw [hrun] at heq
      rw [Prod.mk.injEq] at heq
      obtain ⟨htr, _⟩ := heq
      subst htr
      simp at hmem
      obtain ⟨rfl, rfl, rfl⟩ := hmem
      have hmo : after.multisigOwners = c.multisigOwners := (computeInstall_inv _ _ _ h3).1
      rw [hmo]
      by_cases hb : c.multisigOwners.1
          = getSignerAddressFromPublicIdentifier m.params.initiatorIdentifier
      · rw [if_pos hb, if_pos hb]
        have hr2 : getSignerAddressFromPublicIdentifier m.params.responderIdentifier
            = c.multisigOwners.2 := by
          rcases hro with hr | hr
          · exact absurd (hr.trans hb).symm hir
          · exact hr
        exact ⟨hs.trans hb.symm, (honestR _).trans hr2⟩
      · rw [if_neg hb, if_neg hb]
        have hi2 : getSignerAddressFromPublicIdentifier m.params.initiatorIdentifier
            = c.multisigOwners.2 := by
          rcases hio with hi | hi
          · exact absurd hi.symm hb
          · exact hi
        have hr1 : getSignerAddressFromPublicIdentifier m.params.responderIdentifier
            = c.multisigOwners.1 := by
          rcases hro with hr | hr
          · exact hr
          · exact absurd (hi2.trans hr.symm) hir
        exact ⟨(honestR _).trans hr1, hs.trans hi2⟩
    · rw [hrun] at heq
      rw [Prod.mk.injEq] at heq
      exact Except.noConfusion heq.2

theorem same_asset_tiebreak_normalizes_witness :
    getAddressFromAssetId demoProposal.initiatorDepositAssetId
      = getAddressFromAssetId demoProposal.responderDepositAssetId ∧
    installDecrement demoChannel demoProposal = [(5, [(1, 30), (2, 40)])] :=
  ⟨rfl, (same_asset_tiebreak_normalizes demoChannel demoProposal rfl (by decide)
    (Or.inl ⟨rfl, rfl⟩)).1⟩

theorem install_preserves_asset_totals_witness :
    computeInstallStateChannelTransition demoChannel demoProposal = .ok demoPost ∧
    getBal demoChannel.freeBalance.balances 5 demoChannel.multisigOwners.1
      + getBal demoChannel.freeBalance.balances 5 demoChannel.multisigOwners.2
      = getBal demoPost.freeBalance.balances 5 demoChannel.multisigOwners.1
      + getBal demoPost.freeBalance.balances 5 demoChannel.multisigOwners.2
      + ((if (5 : Nat) = getAddressFromAssetId demoProposal.initiatorDepositAssetId
          then demoProposal.initiatorDeposit else 0)
        + (if (5 : Nat) = getAddressFromAssetId demoProposal.responderDepositAssetId
          then demoProposal.responderDeposit else 0)) :=
  ⟨rfl, install_preserves_asset_totals demoChannel demoProposal demoPost
    (by decide) (Or.inl ⟨rfl, rfl⟩) rfl 5⟩

theorem signatures_in_canonical_owner_order_witness :
    demoChannel.multisigOwners.1 ≠ demoChannel.multisigOwners.2 ∧
    recoverSigner demoHash (Sig.mk 1 demoHash) = demoChannel.multisigOwners.1 ∧
    recoverSigner demoHash (Sig.mk 2 demoHash) = demoChannel.multisigOwners.2 :=
  ⟨by decide,
    (signatures_in_canonical_owner_order demoChannel demoMsg demoHostI demoHostR
      (by decide) (Or.inl rfl) (Or.inr rfl) (by decide)
      (fun h => by simp [demoHostI, recoverSigner, demoMsg, demoParams, demoA,
        getSignerAddressFromPublicIdentifier])
      (fun h => by simp [demoHostR, recoverSigner, demoMsg, demoParams, demoB,
        getSignerAddressFromPublicIdentifier])).1
      demoTraceI demoHash (Sig.mk 1 demoHash) (Sig.mk 2 demoHash)
      rfl (by decide)⟩

theorem responder_verify_before_sign_persist_before_send_witness :
    responderRun (some demoChannel) demoMsg demoHostR = (demoTraceR, Except.ok ()) ∧
    ((demoTraceR.take 5).any isSendEvent = true →
      (demoTraceR.take 5).any isPersist = true) :=
  ⟨rfl,
    (responder_verify_before_sign_persist_before_send (some demoChannel) demoMsg
      demoHostR demoTraceR (Except.ok ()) rfl).2 5⟩

theorem initiator_validate_precedes_actions_witness :
    initiatorRun (some demoChannel) demoMsg demoHostI = (demoTraceI, Except.ok ()) ∧
    (demoTraceI.any isActionEvent = true → demoHostI.validateResult = none) :=
  ⟨rfl,
    (initiator_validate_precedes_actions (some demoChannel) demoMsg demoHostI
      demoTraceI (Except.ok ()) rfl).2.1⟩

theorem initiator_rejects_bad_countersignature_witness :
    recoverSigner (hashToSign demoPost.freeBalance) demoHostBad.reply.customData.signature
      ≠ getSignerAddressFromPublicIdentifier demoMsg.params.responderIdentifier ∧
    (initiatorRun (some demoChannel) demoMsg demoHostBad).2
      = .error .invalidCounterpartySignature ∧
    (initiatorRun (some demoChannel) demoMsg demoHostBad).1.any isPersist = false :=
  ⟨by decide,
    (initiator_rejects_bad_countersignature demoChannel demoMsg demoHostBad demoPost
      rfl rfl rfl rfl (by decide)).1,
    (initiator_rejects_bad_countersignature demoChannel demoMsg demoHostBad demoPost
      rfl rfl rfl rfl (by decide)).2⟩

theorem insufficient_funds_aborts_before_signing_witness :
    getBal demoPoorChannel.freeBalance.balances
        (getAddressFromAssetId demoProposal.initiatorDepositAssetId)
        (getSignerAddressFromPublicIdentifier demoProposal.initiatorIdentifier)
      < demoProposal.initiatorDeposit ∧
    initiatorRun (some demoPoorChannel) demoMsg demoHostI
      = ([], .error (.insufficientFunds demoA 5 10 30)) :=
  ⟨by decide,
    ((insufficient_funds_aborts_before_signing demoPoorChannel demoMsg demoHostI
      demoHostR).1 (by decide)).1⟩

theorem transition_deterministic_hash_agreement_witness :
    Event.opSign demoHash ∈ (initiatorRun (some demoChannel) demoMsg demoHostI).1 ∧
    Event.opSign demoHash ∈ (responderRun (some demoChannel) demoMsg demoHostR).1 ∧
    demoHash = demoHash :=
  ⟨by decide, by decide,
    (transition_deterministic_hash_agreement demoChannel demoChannel demoProposal
      demoProposal rfl rfl).2 demoChannel demoMsg demoHostI demoHostR demoHash demoHash
      (by decide) (by decide)⟩

theorem branch_on_normalized_token_witness :
    demoProposalMixed.initiatorDepositAssetId ≠ demoProposalMixed.responderDepositAssetId ∧
    getAddressFromAssetId demoProposalMixed.initiatorDepositAssetId
      = getAddressFromAssetId demoProposalMixed.responderDepositAssetId ∧
    installDecrement demoChannel demoProposalMixed = [(5, [(1, 30), (2, 40)])] :=
  ⟨by decide, rfl,
    branch_on_normalized_token demoChannel demoProposalMixed (by decide) rfl (by decide)⟩

theorem responder_reply_minimal_witness :
    responderRun (some demoChannel) demoMsg demoHostR = (demoTraceR, Except.ok ()) ∧
    demoReply.processID = demoMsg.processID ∧
    demoReply.protocol = installProtocolName ∧
    demoReply.params = none ∧
    demoReply.toId = demoMsg.params.initiatorIdentifier ∧
    demoReply.seq = UNASSIGNED_SEQ_NO :=
  ⟨rfl,
    ((responder_reply_minimal (some demoChannel) demoMsg demoHostR demoTraceR
      (Except.ok ()) rfl).1 demoReply (by decide)).1,
    ((responder_reply_minimal (some demoChannel) demoMsg demoHostR demoTraceR
      (Except.ok ()) rfl).1 demoReply (by decide)).2.1,
    ((responder_reply_minimal (some demoChannel) demoMsg demoHostR demoTraceR
      (Except.ok ()) rfl).1 demoReply (by decide)).2.2.1,
    ((responder_reply_minimal (some demoChannel) demoMsg demoHostR demoTraceR
      (Except.ok ()) rfl).1 demoReply (by decide)).2.2.2.1,
    ((responder_reply_minimal (some demoChannel) demoMsg demoHostR demoTraceR
      (Except.ok ()) rfl).1 demoReply (by decide)).2.2.2.2.1⟩

end Indra
